import Mathlib

/-!
Shallow embedding of the label-generation logic of `src/app.py`
(CustomLabel Generator).

All lengths are in PostScript points, as in the source: the source works in
`x * inch` where `inch = 72`.  We use exact rationals, so every constant of
the source (`0.2 * inch`, `0.3 * inch`, ...) is represented exactly.

External collaborators (the reportlab barcode generator and font metrics)
are modelled as an explicit environment `Env`:
* `createBarcodeDrawing` returns the natural width/height of the Code128
  glyph for a value, or an error message when glyph generation raises;
* `stringWidth` is `stringWidth(value, 'Helvetica', 10)`.
The layout logic itself is transcribed from `app.py` lines 56-125.
-/

namespace LabelMakers

/-- `inch` constant of `reportlab.lib.units`: 72 points. -/
def inch : ℚ := 72

/-- Model of the Python builtin `str.strip()` (no arguments): remove
whitespace characters from both ends of the string. -/
def pyStrip (s : String) : String :=
  String.mk (((s.data.dropWhile Char.isWhitespace).reverse.dropWhile
    Char.isWhitespace).reverse)

/-- `app.py` lines 57-58: `text_lines = [line.strip() for line in text_lines
if line.strip()]` - strip every line, keep the non-blank ones in order. -/
def text_lines (raws : List String) : List String :=
  (raws.map pyStrip).filter (fun line => line ≠ "")

/-- The inputs of one generation request after form collection: page size in
points (`w = label_width * inch`, `h = label_height * inch`), the filtered
text lines, and the raw barcode value. -/
structure LabelSpec where
  width : ℚ
  height : ℚ
  textLines : List String
  barcodeVal : String
deriving DecidableEq

/-- Natural size of a barcode drawing produced by `createBarcodeDrawing`. -/
structure Glyph where
  width : ℚ
  height : ℚ
deriving DecidableEq

/-- The external drawing/metrics collaborators of `app.py`. -/
structure Env where
  createBarcodeDrawing : String → Except String Glyph
  stringWidth : String → ℚ

/-- One positioned draw operation of a page's draw plan:
* `textLine` is `para.drawOn(c, x, y)` for one address line (line 90);
* `barcodeGlyph` is `renderPDF.draw(barcode_obj, c, x, y)` with the emitted
  glyph width and height (line 115);
* `caption` is the human-readable `c.drawString((w - text_w)/2, ..., value)`
  (line 120). -/
inductive DrawOp where
  | textLine (text : String) (x y : ℚ)
  | barcodeGlyph (value : String) (x y wdt hgt : ℚ)
  | caption (value : String) (x y : ℚ)
deriving DecidableEq

/-- Result of composing one page: the draw operations in order, and the
error surfaced through `st.error` when barcode generation failed. -/
structure PageResult where
  ops : List DrawOp
  err : Option String
deriving DecidableEq

/-- `app.py` lines 84-91: the text loop.  Given the remaining lines and the
current `y_cursor`, it breaks when `y_cursor < 0.3 * inch`, else draws the
line at `(0.2 * inch, y_cursor - 0.15 * inch)` and advances the cursor down
by `0.2 * inch`.  Returns the draw operations and the final cursor. -/
def drawText : List String → ℚ → List DrawOp × ℚ
  | [], yCursor => ([], yCursor)
  | line :: rest, yCursor =>
    if yCursor < 0.3 * inch then ([], yCursor)
    else
      let next := drawText rest (yCursor - 0.2 * inch)
      (DrawOp.textLine line (0.2 * inch) (yCursor - 0.15 * inch) :: next.1, next.2)

/-- `app.py` lines 81-123: compose one page.  The cursor starts at
`h - 0.2 * inch`; text lines are drawn by `drawText`; then, if a barcode
value is present, the glyph is generated, clamped to
`MAX_BARCODE_WIDTH = w - 0.6 * inch` (horizontal scale only), centered at
`x_bc = (w - width) / 2`, placed at `y_bc = max(0.8 * inch, h/2 - 0.3 *
inch)`, and captioned; a generation failure is caught and reported as
`st.error(f"Barcode error: {e}")`, skipping the barcode ops of this page. -/
def compose (env : Env) (spec : LabelSpec) : PageResult :=
  let yStart := spec.height - 0.2 * inch
  let textOps := (drawText spec.textLines yStart).1
  if spec.barcodeVal = "" then
    { ops := textOps, err := none }
  else
    match env.createBarcodeDrawing spec.barcodeVal with
    | Except.error e => { ops := textOps, err := some ("Barcode error: " ++ e) }
    | Except.ok glyph =>
      let maxBarcodeWidth := spec.width - 0.6 * inch
      let bcWidth := if glyph.width > maxBarcodeWidth then maxBarcodeWidth else glyph.width
      let x_bc := (spec.width - bcWidth) / 2
      let y_bc := max (0.8 * inch) (spec.height / 2 - 0.3 * inch)
      let text_w := env.stringWidth spec.barcodeVal
      { ops := textOps ++
          [DrawOp.barcodeGlyph spec.barcodeVal x_bc y_bc bcWidth glyph.height,
           DrawOp.caption spec.barcodeVal ((spec.width - text_w) / 2)
             (y_bc - 0.18 * inch)],
        err := none }

/-- A command sent to the pdf canvas: a draw operation or `c.showPage()`. -/
inductive Cmd where
  | op (o : DrawOp)
  | showPage
deriving DecidableEq

/-- The canvas commands of iteration `label_idx` of the batch loop
(`app.py` lines 77-79): a page break first unless this is the first page,
then the page's draw operations. -/
def pageCmds (plan : List DrawOp) (label_idx : ℕ) : List Cmd :=
  (if 0 < label_idx then [Cmd.showPage] else []) ++ plan.map Cmd.op

/-- The full canvas command stream of the batch loop
`for label_idx in range(total_labels)`. -/
def emitStream (plan : List DrawOp) (total_labels : ℕ) : List Cmd :=
  (List.range total_labels).flatMap (pageCmds plan)

/-- The `st.error` reports of the batch loop: the barcode is attempted
afresh on every iteration, so each iteration surfaces the page's error. -/
def emitErrors (env : Env) (spec : LabelSpec) (total_labels : ℕ) :
    List (Option String) :=
  (List.range total_labels).map (fun _ => (compose env spec).err)

/-- Split a canvas command stream into its pages: `c.save()` seals the
current page, and each `showPage` ends a page and starts the next. -/
def pages : List Cmd → List (List DrawOp)
  | [] => [[]]
  | Cmd.showPage :: rest => [] :: pages rest
  | Cmd.op o :: rest =>
    match pages rest with
    | [] => [[o]]
    | p :: ps => (o :: p) :: ps

/-- Number of `showPage` commands (page breaks) in a stream. -/
def countShowPages : List Cmd → ℕ
  | [] => 0
  | Cmd.showPage :: rest => countShowPages rest + 1
  | Cmd.op _ :: rest => countShowPages rest

/-- Outcome of pressing the Generate PDF button: either the validation
warning (line 62) with no document at all, or the finished document (canvas
stream plus the per-page error reports). -/
inductive GenResult where
  | validationError (msg : String)
  | document (stream : List Cmd) (errors : List (Option String))
deriving DecidableEq

/-- `app.py` lines 60-126: the Generate PDF handler.  `if not barcode_val
and not text_lines` rejects the request before any canvas exists; otherwise
the page size is `(width_in * inch, height_in * inch)` and the batch loop
runs `batch` times. -/
def generate (env : Env) (width_in height_in : ℚ) (raws : List String)
    (barcode_val : String) (batch : ℕ) : GenResult :=
  let tls := text_lines raws
  if barcode_val = "" ∧ tls = [] then
    GenResult.validationError "Please enter either a barcode or at least one text line."
  else
    let spec : LabelSpec :=
      { width := width_in * inch, height := height_in * inch,
        textLines := tls, barcodeVal := barcode_val }
    GenResult.document (emitStream (compose env spec).ops batch)
      (emitErrors env spec batch)

/-! ### Observation helpers -/

/-- The texts of the `textLine` draw operations, in draw order. -/
def textDraws (ops : List DrawOp) : List String :=
  ops.filterMap fun op => match op with
    | DrawOp.textLine t _ _ => some t
    | _ => none

/-- Emitted width and height of the first barcode glyph drawn, if any. -/
def barcodeDims (ops : List DrawOp) : Option (ℚ × ℚ) :=
  (ops.filterMap fun op => match op with
    | DrawOp.barcodeGlyph _ _ _ wdt hgt => some (wdt, hgt)
    | _ => none).head?

/-- Vertical position of the first barcode glyph drawn, if any. -/
def barcodeY (ops : List DrawOp) : Option ℚ :=
  (ops.filterMap fun op => match op with
    | DrawOp.barcodeGlyph _ _ y _ _ => some y
    | _ => none).head?

/-- The value of `y_cursor` after the text loop of one page. -/
def lastTextCursor (spec : LabelSpec) : ℚ :=
  (drawText spec.textLines (spec.height - 0.2 * inch)).2

/-! ### Concrete environments for witnesses -/

/-- Environment for specs without a barcode (the collaborators are never
consulted). -/
def envNoBarcode : Env :=
  { createBarcodeDrawing := fun _ => Except.error "unused",
    stringWidth := fun _ => 0 }

/-- Environment in which glyph generation always fails. -/
def envFail : Env :=
  { createBarcodeDrawing := fun _ => Except.error "bad",
    stringWidth := fun _ => 0 }

/-- Environment producing a narrow glyph (100 pt wide, 43.2 pt tall). -/
def envNarrow : Env :=
  { createBarcodeDrawing := fun _ => Except.ok { width := 100, height := 43.2 },
    stringWidth := fun _ => 50 }

/-- Environment producing a wide glyph (1000 pt wide, 43.2 pt tall). -/
def envWide : Env :=
  { createBarcodeDrawing := fun _ => Except.ok { width := 1000, height := 43.2 },
    stringWidth := fun _ => 50 }

/-- Scenario A of the spec: a 4 x 3 inch label with three text lines and no
barcode (after filtering). -/
def specScenA : LabelSpec :=
  { width := 4 * inch, height := 3 * inch,
    textLines := ["Acme Corp", "123 Main St", "Springfield"], barcodeVal := "" }

/-- A 4 x 3 inch label with one text line and a barcode value. -/
def specBC : LabelSpec :=
  { width := 4 * inch, height := 3 * inch, textLines := ["A"], barcodeVal := "X" }

/-- A 4 x 4 inch label, one text line, barcode: after its one text draw the
cursor sits at `4 * inch - 0.4 * inch = 259.2`. -/
def specOneLine : LabelSpec :=
  { width := 4 * inch, height := 4 * inch, textLines := ["A"], barcodeVal := "X" }

/-- A 4 x 4.2 inch label, two text lines, barcode: after its two text draws
the cursor also sits at `4.2 * inch - 0.6 * inch = 259.2`. -/
def specTwoLines : LabelSpec :=
  { width := 4 * inch, height := 4.2 * inch, textLines := ["A", "B"],
    barcodeVal := "X" }

/-- Scenario A built from its raw form inputs: the four entered lines (one
blank) go through the `text_lines` filtering. -/
def specScenARaw : LabelSpec :=
  { width := 4 * inch, height := 3 * inch,
    textLines := text_lines ["Acme Corp", "123 Main St", "", "Springfield"],
    barcodeVal := "" }

/-! ### The batch loop in closed form

`emitStream plan n` is the flat list of canvas commands of the loop
`for label_idx in range(n)`.  For `n = k + 1` it is the first page followed
by `k` copies of "page break then page", which `streamAux` captures. -/

/-- `k` repetitions of "page break, then the page's draw operations". -/
def streamAux (plan : List DrawOp) : ℕ → List Cmd
  | 0 => []
  | k + 1 => Cmd.showPage :: (plan.map Cmd.op ++ streamAux plan k)

theorem streamAux_snoc (plan : List DrawOp) (k : ℕ) :
    streamAux plan k ++ (Cmd.showPage :: plan.map Cmd.op) =
      streamAux plan (k + 1) := by
  induction k with
  | zero => simp [streamAux]
  | succ k ih => simp only [streamAux, List.cons_append, List.append_assoc, ih]

theorem emitStream_closed (plan : List DrawOp) (k : ℕ) :
    emitStream plan (k + 1) = plan.map Cmd.op ++ streamAux plan k := by
  induction k with
  | zero => simp [emitStream, pageCmds, streamAux, List.range_succ]
  | succ k ih =>
    rw [emitStream, List.range_succ, List.flatMap_append, ← emitStream, ih]
    simp only [List.flatMap_cons, List.flatMap_nil, List.append_nil, pageCmds,
      Nat.succ_pos, if_pos, List.append_assoc]
    rw [← streamAux_snoc]
    simp

theorem pages_map_op_append (l : List DrawOp) (rest : List Cmd) :
    pages (l.map Cmd.op ++ Cmd.showPage :: rest) = l :: pages rest := by
  induction l with
  | nil => simp [pages]
  | cons o l ih => simp [pages, ih]

theorem pages_map_op (l : List DrawOp) : pages (l.map Cmd.op) = [l] := by
  induction l with
  | nil => simp [pages]
  | cons o l ih => simp [pages, ih]

theorem pages_aux_form (plan : List DrawOp) (k : ℕ) :
    pages (plan.map Cmd.op ++ streamAux plan k) =
      List.replicate (k + 1) plan := by
  induction k with
  | zero => simp [streamAux, pages_map_op]
  | succ k ih =>
    rw [streamAux, pages_map_op_append, ih]
    simp [List.replicate_succ]

theorem pages_emitStream (plan : List DrawOp) (n : ℕ) (hn : 1 ≤ n) :
    pages (emitStream plan n) = List.replicate n plan := by
  obtain ⟨k, rfl⟩ : ∃ k, n = k + 1 :=
    ⟨n - 1, (Nat.succ_pred_eq_of_pos hn).symm⟩
  rw [emitStream_closed, pages_aux_form]

theorem countShowPages_append (a b : List Cmd) :
    countShowPages (a ++ b) = countShowPages a + countShowPages b := by
  induction a with
  | nil => simp [countShowPages]
  | cons c a ih =>
    cases c with
    | op o => simp [countShowPages, ih]
    | showPage => simp [countShowPages, ih]; omega

theorem countShowPages_map_op (l : List DrawOp) :
    countShowPages (l.map Cmd.op) = 0 := by
  induction l with
  | nil => simp [countShowPages]
  | cons o l ih => simpa [countShowPages] using ih

theorem countShowPages_streamAux (plan : List DrawOp) (k : ℕ) :
    countShowPages (streamAux plan k) = k := by
  induction k with
  | zero => simp [countShowPages, streamAux]
  | succ k ih =>
    simp [streamAux, countShowPages, countShowPages_append,
      countShowPages_map_op, ih]

theorem countShowPages_emitStream (plan : List DrawOp) (n : ℕ) (hn : 1 ≤ n) :
    countShowPages (emitStream plan n) = n - 1 := by
  obtain ⟨k, rfl⟩ : ∃ k, n = k + 1 :=
    ⟨n - 1, (Nat.succ_pred_eq_of_pos hn).symm⟩
  rw [emitStream_closed]
  simp [countShowPages_append, countShowPages_map_op, countShowPages_streamAux]

/-! ### Properties of the text loop -/

theorem drawText_length_le (lines : List String) (yc : ℚ) :
    (drawText lines yc).1.length ≤ lines.length := by
  induction lines generalizing yc with
  | nil => simp [drawText]
  | cons l rest ih =>
    by_cases h : yc < 0.3 * inch
    · simp [drawText, h]
    · simpa [drawText, h] using ih (yc - 0.2 * inch)

theorem drawText_textDraws (lines : List String) (yc : ℚ) :
    textDraws (drawText lines yc).1 =
      lines.take (drawText lines yc).1.length := by
  induction lines generalizing yc with
  | nil => simp [drawText, textDraws]
  | cons l rest ih =>
    by_cases h : yc < 0.3 * inch
    · simp [drawText, h, textDraws]
    · simpa [drawText, h, textDraws] using ih (yc - 0.2 * inch)

theorem drawText_final_cursor (lines : List String) (yc : ℚ) :
    (drawText lines yc).2 =
      yc - 0.2 * inch * (drawText lines yc).1.length := by
  induction lines generalizing yc with
  | nil => simp [drawText]
  | cons l rest ih =>
    by_cases h : yc < 0.3 * inch
    · simp [drawText, h]
    · have := ih (yc - 0.2 * inch)
      simp only [drawText, if_neg h, List.length_cons]
      push_cast
      rw [this]
      ring

theorem drawText_truncates (lines : List String) (yc : ℚ)
    (hlt : (drawText lines yc).1.length < lines.length) :
    yc - 0.2 * inch * (drawText lines yc).1.length < 0.3 * inch := by
  induction lines generalizing yc with
  | nil => simp [drawText] at hlt
  | cons l rest ih =>
    by_cases h : yc < 0.3 * inch
    · simp [drawText, h]
    · simp only [drawText, if_neg h, List.length_cons] at hlt ⊢
      have := ih (yc - 0.2 * inch) (by omega)
      push_cast
      push_cast at this
      linarith

theorem drawText_drawn_above (lines : List String) (yc : ℚ) (j : ℕ)
    (hj : j < (drawText lines yc).1.length) :
    ¬ (yc - 0.2 * inch * j < 0.3 * inch) := by
  induction lines generalizing yc j with
  | nil => simp [drawText] at hj
  | cons l rest ih =>
    by_cases h : yc < 0.3 * inch
    · simp [drawText, h] at hj
    · simp only [drawText, if_neg h, List.length_cons] at hj
      cases j with
      | zero => simpa using h
      | succ j =>
        have := ih (yc - 0.2 * inch) j (by omega)
        push_cast
        push_cast at this
        intro hcon
        exact this (by linarith)

/-! ### Properties of page composition -/

/-- Every draw operation produced by the text loop is a `textLine`, so any
observation that ignores `textLine` operations sees through them. -/
theorem filterMap_drawText_none {β : Type} (f : DrawOp → Option β)
    (hf : ∀ t x y, f (DrawOp.textLine t x y) = none)
    (lines : List String) (yc : ℚ) (rest : List DrawOp) :
    ((drawText lines yc).1 ++ rest).filterMap f = rest.filterMap f := by
  induction lines generalizing yc with
  | nil => simp [drawText]
  | cons l rest' ih =>
    by_cases h : yc < 0.3 * inch
    · simp [drawText, h]
    · simpa [drawText, h, List.filterMap_cons, hf] using ih (yc - 0.2 * inch)

theorem compose_textDraws (env : Env) (spec : LabelSpec) :
    textDraws (compose env spec).ops =
      textDraws (drawText spec.textLines (spec.height - 0.2 * inch)).1 := by
  by_cases hb : spec.barcodeVal = ""
  · simp [compose, hb]
  · cases henc : env.createBarcodeDrawing spec.barcodeVal with
    | error e => simp [compose, hb, henc]
    | ok glyph =>
      simp only [compose, hb, henc, if_neg, reduceIte]
      simp [textDraws, List.filterMap_append]

theorem compose_err_of_no_barcode (env : Env) (spec : LabelSpec)
    (hb : spec.barcodeVal = "") : (compose env spec).err = none := by
  simp [compose, hb]

theorem compose_ops_of_no_barcode (env : Env) (spec : LabelSpec)
    (hb : spec.barcodeVal = "") :
    (compose env spec).ops =
      (drawText spec.textLines (spec.height - 0.2 * inch)).1 := by
  simp [compose, hb]

/-- When glyph generation raises, the page keeps its text draws, gets no
barcode or caption operations, and surfaces `Barcode error: ...`. -/
theorem compose_of_glyph_failure (env : Env) (spec : LabelSpec) (e : String)
    (hb : spec.barcodeVal ≠ "")
    (henc : env.createBarcodeDrawing spec.barcodeVal = Except.error e) :
    compose env spec =
      { ops := (drawText spec.textLines (spec.height - 0.2 * inch)).1,
        err := some ("Barcode error: " ++ e) } := by
  simp [compose, hb, henc]

theorem emitErrors_const (env : Env) (spec : LabelSpec) (n : ℕ) :
    emitErrors env spec n = List.replicate n (compose env spec).err := by
  induction n with
  | zero => simp [emitErrors]
  | succ k ih =>
    simp only [emitErrors, List.range_succ, List.map_append] at *
    rw [ih]
    simp [List.replicate_succ]
    exact (List.replicate_succ' _ _).symm ▸ rfl

/-- The emitted glyph of a successfully generated barcode: the width is
clamped to `w - 0.6 * inch`, the height is passed through unscaled. -/
theorem barcodeDims_compose_ok (env : Env) (spec : LabelSpec) (glyph : Glyph)
    (hb : spec.barcodeVal ≠ "")
    (henc : env.createBarcodeDrawing spec.barcodeVal = Except.ok glyph) :
    barcodeDims (compose env spec).ops =
      some ((if glyph.width > spec.width - 0.6 * inch then
        spec.width - 0.6 * inch else glyph.width), glyph.height) := by
  simp only [compose, hb, henc, if_neg, reduceIte, barcodeDims]
  rw [filterMap_drawText_none _ (fun _ _ _ => rfl)]
  simp [List.filterMap_cons]

/-! ### The claims -/

/-- Claim C1: if a generation request supplies neither a barcode value nor
any non-empty text line, it is rejected with the validation warning before
any rendering work begins, and no document (not even partial) is
produced. -/
theorem C1_empty_request_rejected (env : Env) (width_in height_in : ℚ)
    (raws : List String) (batch : ℕ) (hlines : text_lines raws = []) :
    generate env width_in height_in raws "" batch =
      GenResult.validationError
        "Please enter either a barcode or at least one text line." := by
  simp [generate, hlines]

/-- Witness for C1: scenario C (all inputs blank). -/
theorem C1_empty_request_rejected_witness :
    generate envNoBarcode 4 3 ["", "   ", "", ""] "" 1 =
      GenResult.validationError
        "Please enter either a barcode or at least one text line." :=
  C1_empty_request_rejected envNoBarcode 4 3 ["", "   ", "", ""] 1 (by decide)

/-- Claim C2: for every spec and every count `1 ≤ n ≤ 1000`, the emitted
document has exactly `n` pages, exactly `n - 1` page breaks, and every
page's draw plan is the same `compose` result. -/
theorem C2_batch_pages (env : Env) (spec : LabelSpec) (n : ℕ)
    (h1 : 1 ≤ n) (_h2 : n ≤ 1000) :
    (pages (emitStream (compose env spec).ops n)).length = n ∧
    countShowPages (emitStream (compose env spec).ops n) = n - 1 ∧
    ∀ p ∈ pages (emitStream (compose env spec).ops n),
      p = (compose env spec).ops := by
  refine ⟨?_, countShowPages_emitStream _ _ h1, ?_⟩
  · rw [pages_emitStream _ _ h1, List.length_replicate]
  · intro p hp
    rw [pages_emitStream _ _ h1] at hp
    exact List.eq_of_mem_replicate hp

/-- Witness for C2: scenario A spec, batch of 5. -/
theorem C2_batch_pages_witness :
    (pages (emitStream (compose envNoBarcode specScenA).ops 5)).length = 5 ∧
    countShowPages (emitStream (compose envNoBarcode specScenA).ops 5) =
      5 - 1 ∧
    ∀ p ∈ pages (emitStream (compose envNoBarcode specScenA).ops 5),
      p = (compose envNoBarcode specScenA).ops :=
  C2_batch_pages envNoBarcode specScenA 5 (by decide) (by decide)

/-- Claim C3: when the glyph's natural width exceeds
`page width - 0.6 * inch`, the emitted glyph width exactly equals
`page width - 0.6 * inch` and the height is unscaled; otherwise the natural
width is emitted unscaled. -/
theorem C3_barcode_width_clamp (env : Env) (spec : LabelSpec) (glyph : Glyph)
    (hb : spec.barcodeVal ≠ "")
    (henc : env.createBarcodeDrawing spec.barcodeVal = Except.ok glyph) :
    (glyph.width > spec.width - 0.6 * inch →
      barcodeDims (compose env spec).ops =
        some (spec.width - 0.6 * inch, glyph.height)) ∧
    (¬ glyph.width > spec.width - 0.6 * inch →
      barcodeDims (compose env spec).ops =
        some (glyph.width, glyph.height)) := by
  have h := barcodeDims_compose_ok env spec glyph hb henc
  constructor <;> intro hw
  · rwa [if_pos hw] at h
  · rwa [if_neg hw] at h

/-- Witness for C3: a 1000 pt glyph on a 4 inch page is clamped to
`288 - 43.2` points. -/
theorem C3_barcode_width_clamp_witness :
    barcodeDims (compose envWide specBC).ops =
      some (4 * inch - 0.6 * inch, 43.2) :=
  (C3_barcode_width_clamp envWide specBC { width := 1000, height := 43.2 }
    (by decide) rfl).1 (by norm_num [inch, specBC])

/-- Claim C8: composition is deterministic - the draw plan depends only on
the inputs, and composing the same spec twice yields an identical plan (the
embedding of the per-page layout is a pure function of the spec and the
collaborators). -/
theorem C8_compose_deterministic (env : Env) (s t : LabelSpec) (h : s = t) :
    compose env s = compose env t := by rw [h]

/-- Witness for C8. -/
theorem C8_compose_deterministic_witness :
    compose envNoBarcode specScenA = compose envNoBarcode specScenA :=
  C8_compose_deterministic envNoBarcode specScenA specScenA rfl

/-- Claim C9 (implicit): for every page height of at least 1 inch and
non-empty filtered text, at least the first text line is drawn - the
initial cursor `h - 0.2 * inch ≥ 0.8 * inch` is above the
`0.3 * inch` truncation threshold. -/
theorem C9_first_line_drawn (env : Env) (spec : LabelSpec)
    (hh : 1 * inch ≤ spec.height) (hne : spec.textLines ≠ []) :
    1 ≤ (textDraws (compose env spec).ops).length := by
  rw [compose_textDraws]
  obtain ⟨l, rest, heq⟩ : ∃ l rest, spec.textLines = l :: rest := by
    cases h : spec.textLines with
    | nil => exact absurd h hne
    | cons a b => exact ⟨a, b, rfl⟩
  rw [heq]
  have hcond : ¬ (spec.height - 0.2 * inch < 0.3 * inch) := by
    simp only [inch] at hh ⊢
    intro hcon
    linarith
  simp [drawText, hcond, textDraws]

/-- Witness for C9. -/
theorem C9_first_line_drawn_witness :
    1 ≤ (textDraws (compose envNoBarcode specScenA).ops).length :=
  C9_first_line_drawn envNoBarcode specScenA
    (by norm_num [inch, specScenA]) (by decide)

/-- Claim C4 (evidence): the code computes
`y_bc = max(0.8 * inch, h / 2 - 0.3 * inch)` (app.py line 113), ignoring
the text cursor: `specOneLine` and `specTwoLines` leave the cursor at the
same height `259.2`, yet their barcodes are placed at `122.4` and `129.6`,
so no fixed-constant `max(minimum_height, last_text_cursor - gap)` formula
can describe the code, contrary to the claim and to the code's own comment
"Position below text or near vertical center if no text". -/
theorem C4_barcode_y_ignores_cursor :
    lastTextCursor specOneLine = 259.2 ∧
    lastTextCursor specTwoLines = 259.2 ∧
    barcodeY (compose envNarrow specOneLine).ops = some 122.4 ∧
    barcodeY (compose envNarrow specTwoLines).ops = some 129.6 := by
  refine ⟨?_, ?_, ?_, ?_⟩
  · norm_num [lastTextCursor, drawText, specOneLine, inch]
  · norm_num [lastTextCursor, drawText, specTwoLines, inch]
  · norm_num [compose, drawText, specOneLine, envNarrow, barcodeY, inch,
      max_def]
    try rfl
  · norm_num [compose, drawText, specTwoLines, envNarrow, barcodeY, inch,
      max_def]
    try rfl

/-- Counterexample to claim C5 as stated: with a glyph generator that
always fails, `generate` still returns a complete two-page document (the
request is NOT aborted) - both pages carry the text draw, the barcode and
caption are skipped, and the error is surfaced once per page. -/
theorem C5_counterexample_not_aborted :
    generate envFail 4 3 ["A"] "X" 2 =
      GenResult.document
        [Cmd.op (DrawOp.textLine "A" 14.4 190.8), Cmd.showPage,
         Cmd.op (DrawOp.textLine "A" 14.4 190.8)]
        [some "Barcode error: bad", some "Barcode error: bad"] ∧
    pages [Cmd.op (DrawOp.textLine "A" 14.4 190.8), Cmd.showPage,
        Cmd.op (DrawOp.textLine "A" 14.4 190.8)] =
      [[DrawOp.textLine "A" 14.4 190.8], [DrawOp.textLine "A" 14.4 190.8]] := by
  have ht : text_lines ["A"] = ["A"] := by decide
  have hba : ("Barcode error: " ++ "bad" : String) = "Barcode error: bad" := by
    decide
  constructor
  · simp only [generate]
    rw [if_neg (by decide : ¬ (("X" : String) = "" ∧ text_lines ["A"] = [])),
      ht]
    norm_num [compose, drawText, emitStream, emitErrors, pageCmds, envFail,
      inch, List.range_succ, hba]
    exact ⟨rfl, rfl⟩
  · simp [pages]

/-- Claim C5 (amended): if glyph generation fails, the error is surfaced to
the caller as `Barcode error: ...` per occurrence, the failing page keeps
its text draws but gets no barcode or caption, and generation is NOT
aborted: the document still contains every page of the batch (prior pages
are not rolled back, later pages are still emitted). -/
theorem C5_glyph_failure_surfaced (env : Env) (spec : LabelSpec) (n : ℕ)
    (e : String) (hb : spec.barcodeVal ≠ "")
    (henc : env.createBarcodeDrawing spec.barcodeVal = Except.error e)
    (hn : 1 ≤ n) :
    (compose env spec).ops =
      (drawText spec.textLines (spec.height - 0.2 * inch)).1 ∧
    (compose env spec).err = some ("Barcode error: " ++ e) ∧
    (pages (emitStream (compose env spec).ops n)).length = n ∧
    emitErrors env spec n =
      List.replicate n (some ("Barcode error: " ++ e)) := by
  have hc := compose_of_glyph_failure env spec e hb henc
  refine ⟨by rw [hc], by rw [hc], ?_, ?_⟩
  · rw [pages_emitStream _ _ hn, List.length_replicate]
  · rw [emitErrors_const, hc]

/-- Witness for the amended C5. -/
theorem C5_glyph_failure_surfaced_witness :
    (compose envFail specBC).ops =
      (drawText specBC.textLines (specBC.height - 0.2 * inch)).1 ∧
    (compose envFail specBC).err = some ("Barcode error: " ++ "bad") ∧
    (pages (emitStream (compose envFail specBC).ops 2)).length = 2 ∧
    emitErrors envFail specBC 2 =
      List.replicate 2 (some ("Barcode error: " ++ "bad")) :=
  C5_glyph_failure_surfaced envFail specBC 2 "bad" (by decide) rfl (by decide)

/-- Claim C10 (implicit): a barcode glyph-generation failure never reduces
the page count - the document still has exactly `n` pages, and the barcode
is attempted (and its error surfaced) independently on every page. -/
theorem C10_failure_keeps_page_count (env : Env) (spec : LabelSpec) (n : ℕ)
    (e : String) (hb : spec.barcodeVal ≠ "")
    (henc : env.createBarcodeDrawing spec.barcodeVal = Except.error e)
    (hn : 1 ≤ n) :
    (pages (emitStream (compose env spec).ops n)).length = n ∧
    emitErrors env spec n =
      List.replicate n (some ("Barcode error: " ++ e)) := by
  have hc := compose_of_glyph_failure env spec e hb henc
  refine ⟨?_, ?_⟩
  · rw [pages_emitStream _ _ hn, List.length_replicate]
  · rw [emitErrors_const, hc]

/-- Witness for C10: three pages survive a failing barcode. -/
theorem C10_failure_keeps_page_count_witness :
    (pages (emitStream (compose envFail specBC).ops 3)).length = 3 ∧
    emitErrors envFail specBC 3 =
      List.replicate 3 (some ("Barcode error: " ++ "bad")) :=
  C10_failure_keeps_page_count envFail specBC 3 "bad" (by decide) rfl
    (by decide)

/-- Claim C6: with at least one text line and no barcode, the text lines
are drawn in input order; all of them are drawn unless the cursor falls
below the `0.3 * inch` threshold, in which case the remaining lines are
silently truncated (no error raised), and truncation triggers exactly at
the threshold: every drawn line had its cursor at or above it. -/
theorem C6_text_order_and_truncation (env : Env) (spec : LabelSpec)
    (hb : spec.barcodeVal = "") (_hne : spec.textLines ≠ []) :
    textDraws (compose env spec).ops =
      spec.textLines.take (textDraws (compose env spec).ops).length ∧
    (compose env spec).err = none ∧
    ((textDraws (compose env spec).ops).length = spec.textLines.length ∨
      ((textDraws (compose env spec).ops).length < spec.textLines.length ∧
        (spec.height - 0.2 * inch) -
          0.2 * inch * (textDraws (compose env spec).ops).length <
          0.3 * inch)) ∧
    ∀ j < (textDraws (compose env spec).ops).length,
      ¬ ((spec.height - 0.2 * inch) - 0.2 * inch * j < 0.3 * inch) := by
  have hops := compose_ops_of_no_barcode env spec hb
  have hk : (textDraws (compose env spec).ops).length =
      (drawText spec.textLines (spec.height - 0.2 * inch)).1.length := by
    rw [hops, drawText_textDraws, List.length_take]
    exact min_eq_left (drawText_length_le _ _)
  refine ⟨?_, compose_err_of_no_barcode env spec hb, ?_, ?_⟩
  · rw [hk, hops, drawText_textDraws]
  · rw [hk]
    rcases lt_or_eq_of_le (drawText_length_le spec.textLines
        (spec.height - 0.2 * inch)) with hlt | heq
    · exact Or.inr ⟨hlt, drawText_truncates _ _ hlt⟩
    · exact Or.inl heq
  · intro j hj
    rw [hk] at hj
    exact drawText_drawn_above _ _ j hj

/-- Witness for C6: scenario A. -/
theorem C6_text_order_and_truncation_witness :
    textDraws (compose envNoBarcode specScenA).ops =
      specScenA.textLines.take
        (textDraws (compose envNoBarcode specScenA).ops).length ∧
    (compose envNoBarcode specScenA).err = none ∧
    ((textDraws (compose envNoBarcode specScenA).ops).length =
        specScenA.textLines.length ∨
      ((textDraws (compose envNoBarcode specScenA).ops).length <
          specScenA.textLines.length ∧
        (specScenA.height - 0.2 * inch) -
          0.2 * inch *
            (textDraws (compose envNoBarcode specScenA).ops).length <
          0.3 * inch)) ∧
    ∀ j < (textDraws (compose envNoBarcode specScenA).ops).length,
      ¬ ((specScenA.height - 0.2 * inch) - 0.2 * inch * j < 0.3 * inch) :=
  C6_text_order_and_truncation envNoBarcode specScenA rfl (by decide)

/-- Claim C7: blank entries are filtered out preserving the relative order
of the remaining lines, and scenario A (4 inputs, one blank) yields exactly
the three text draws in input order with no barcode draw. -/
theorem C7_blank_lines_filtered (raws : List String) (_h4 : raws.length ≤ 4) :
    text_lines raws = (raws.filter (fun l => pyStrip l ≠ "")).map pyStrip ∧
    (∀ s ∈ text_lines raws, s ≠ "") ∧
    List.Sublist (text_lines raws) (raws.map pyStrip) ∧
    ∀ env : Env,
      textDraws (compose env specScenARaw).ops =
        ["Acme Corp", "123 Main St", "Springfield"] ∧
      barcodeDims (compose env specScenARaw).ops = none := by
  have ht : text_lines ["Acme Corp", "123 Main St", "", "Springfield"] =
      ["Acme Corp", "123 Main St", "Springfield"] := by decide
  refine ⟨?_, ?_, ?_, ?_⟩
  · simp [text_lines, List.filter_map, Function.comp_def]
  · intro s hs
    simp [text_lines, List.mem_filter] at hs
    exact hs.2
  · simp only [text_lines]
    exact List.filter_sublist (raws.map pyStrip)
  · intro env
    have hrec : specScenARaw = specScenA := by
      unfold specScenARaw specScenA
      rw [ht]
    rw [hrec]
    constructor
    · norm_num [specScenA, compose, drawText, textDraws, inch]
      try rfl
    · norm_num [specScenA, compose, drawText, barcodeDims, inch]
      try rfl

/-- Witness for C7: the scenario A raw inputs. -/
theorem C7_blank_lines_filtered_witness :
    text_lines ["Acme Corp", "123 Main St", "", "Springfield"] =
      ((["Acme Corp", "123 Main St", "", "Springfield"] : List String).filter
        (fun l => pyStrip l ≠ "")).map pyStrip ∧
    (∀ s ∈ text_lines ["Acme Corp", "123 Main St", "", "Springfield"],
      s ≠ "") ∧
    List.Sublist (text_lines ["Acme Corp", "123 Main St", "", "Springfield"])
      ((["Acme Corp", "123 Main St", "", "Springfield"] : List String).map
        pyStrip) ∧
    ∀ env : Env,
      textDraws (compose env specScenARaw).ops =
        ["Acme Corp", "123 Main St", "Springfield"] ∧
      barcodeDims (compose env specScenARaw).ops = none :=
  C7_blank_lines_filtered ["Acme Corp", "123 Main St", "", "Springfield"]
    (by decide)

end LabelMakers
